import Mathlib

/-!
Verification of the job-lifecycle layer of the financial-document-analyzer
service: a shallow embedding of `crud.py`, `database.py`,
`redis_queue/queue_config.py`, `background_tasks.py`, `worker.py` and the
`POST /analyze` endpoint of `main.py`, together with theorems settling the
specification claims about job status transitions, temporary-file cleanup,
validation and broker availability.

Modelling conventions:
- `datetime.utcnow()` timestamps are abstract `Nat` instants passed in
  explicitly at each call that reads the clock.
- The relational store of `Analysis` rows is a `List Analysis`; the
  autoincrement primary key is modelled as `length + 1` (rows are only ever
  appended).  `query(...).first()` is `List.find?`, and SQLAlchemy's
  in-place mutation of the row returned by `.first()` is replacement of the
  first matching row.
- The filesystem is an association list from paths to byte contents
  (bytes as `String`).  `open(path, "wb")` creates/truncates the file at
  once (empty content), `f.write` stores the content, `os.remove` erases
  the entry.
- The JSON column `detailed_results` is abstracted to a flat key/value map
  `List (String × String)`; the nested list the code stores under
  `components_analyzed` is flattened to one comma-joined string.  The
  claims only ever test this field for presence/absence/preservation.
- The CrewAI pipeline (`Crew(...).kickoff`) is an external collaborator;
  its outcome is a parameter `crew : Except String String`, the error case
  carrying Python's `str(e)` for the raised exception.
-/

deriving instance DecidableEq for Except

namespace FinAnalyzer

/-- An `analyses` row, from the `Analysis` model in `database.py`.
`user_id` is nullable; `file_id` is declared `nullable=False` in the
schema but we keep it as `Option Nat` so that the store can also describe
hypothetical rows; `create_analysis` always fills it. -/
structure Analysis where
  id : Nat
  user_id : Option Nat
  file_id : Option Nat
  query : String
  status : String
  analysis_type : String
  result_summary : Option String
  detailed_results : Option (List (String × String))
  error_message : Option String
  created_at : Nat
  started_at : Option Nat
  completed_at : Option Nat
  deriving Repr, DecidableEq

/-- The job-record store: the `analyses` table as an ordered list of rows. -/
abbrev Store := List Analysis

/-- The filesystem: an association list mapping a path to the bytes stored
at that path. -/
abbrev FS := List (String × String)

/-- Remove the entry for path `p` (models `os.remove`, and the implicit
truncation performed by reopening a path). -/
def fsErase (fs : FS) (p : String) : FS :=
  fs.filter (fun e => !(e.1 == p))

/-- Store content `v` at path `p`, replacing any previous content
(models `open(p, "wb")` followed by writing `v`). -/
def fsWrite (fs : FS) (p v : String) : FS :=
  (p, v) :: fsErase fs p

/-- Whether a file exists at path `p` (models `os.path.exists`). -/
def fsContains (fs : FS) (p : String) : Bool :=
  fs.any (fun e => e.1 == p)

/-- Python truthiness of an optional string argument: `None` and the empty
string are falsy. -/
def strTruthy : Option String → Bool
  | none => false
  | some s => !s.isEmpty

/-- Python truthiness of an optional dict argument: `None` and the empty
dict are falsy. -/
def dictTruthy : Option (List (String × String)) → Bool
  | none => false
  | some d => !d.isEmpty

/-- `db.query(Analysis).filter(Analysis.id == analysis_id).first()`. -/
def findAnalysis (store : Store) (analysis_id : Nat) : Option Analysis :=
  store.find? (fun a => a.id == analysis_id)

/-- Replace the first row with the given id (SQLAlchemy mutates the row
object returned by `.first()`, leaving any later duplicate untouched). -/
def replaceById : Store → Nat → Analysis → Store
  | [], _, _ => []
  | b :: rest, i, a => if b.id == i then a :: rest else b :: replaceById rest i a

/-- `AnalysisCRUD.create_analysis` (crud.py lines 98-117): builds a row with
`status="pending"`, the schema default `created_at=datetime.utcnow()`, and
null result fields, then commits it.  `file_id` and `query` are required
parameters of the Python function; `user_id` defaults to `None` and
`analysis_type` to `"comprehensive"` (callers here always pass values
explicitly).  Returns the new store and the refreshed row. -/
def create_analysis (store : Store) (file_id : Nat) (query : String)
    (user_id : Option Nat) (analysis_type : String) (now : Nat) :
    Store × Analysis :=
  let a : Analysis :=
    { id := store.length + 1
      user_id := user_id
      file_id := some file_id
      query := query
      status := "pending"
      analysis_type := analysis_type
      result_summary := none
      detailed_results := none
      error_message := none
      created_at := now
      started_at := none
      completed_at := none }
  (store ++ [a], a)

/-- The mutation `update_analysis_status` performs on the row it found
(crud.py lines 151-163): unconditionally overwrite `status`; stamp
`started_at` when the new status is `"processing"` and `completed_at` when
it is `"completed"` or `"failed"`; copy each optional argument into its
field only when it is truthy. -/
def applyStatusUpdate (a : Analysis) (status : String)
    (result_summary : Option String)
    (detailed_results : Option (List (String × String)))
    (error_message : Option String) (now : Nat) : Analysis :=
  let a1 := { a with status := status }
  let a2 :=
    if status == "processing" then { a1 with started_at := some now }
    else if status == "completed" || status == "failed" then
      { a1 with completed_at := some now }
    else a1
  let a3 := if strTruthy result_summary then { a2 with result_summary := result_summary } else a2
  let a4 := if dictTruthy detailed_results then { a3 with detailed_results := detailed_results } else a3
  if strTruthy error_message then { a4 with error_message := error_message } else a4

/-- `AnalysisCRUD.update_analysis_status` (crud.py lines 139-167): look the
row up by id; if absent, return the store unchanged and `None`; otherwise
apply the mutation and commit.  Returns the new store and the refreshed
row (or `None`). -/
def update_analysis_status (store : Store) (analysis_id : Nat)
    (status : String) (result_summary : Option String)
    (detailed_results : Option (List (String × String)))
    (error_message : Option String) (now : Nat) :
    Store × Option Analysis :=
  match findAnalysis store analysis_id with
  | none => (store, none)
  | some a =>
      let a1 := applyStatusUpdate a status result_summary detailed_results error_message now
      (replaceById store analysis_id a1, some a1)

/-! ## Broker configuration (`redis_queue/queue_config.py`) -/

/-- Health of the external broker: whether the broker was reachable when
the `queue_config` module was imported (process startup), and whether it
is reachable now.  The two are independent — the broker may go down, or
come up, after startup. -/
structure BrokerState where
  healthyAtStartup : Bool
  healthyNow : Bool
  deriving Repr, DecidableEq

/-- The module-level connection made at import time (queue_config.py lines
13-20): `redis.from_url` followed by one `ping`; on any exception
`redis_conn` is set to `None`.  The ping happens once, at startup. -/
def startupRedisConn (b : BrokerState) : Option Unit :=
  if b.healthyAtStartup then some () else none

/-- `is_redis_available` (queue_config.py lines 33-35): returns
`redis_conn is not None`, i.e. the cached result of the startup
connection attempt.  It performs no ping of its own. -/
def is_redis_available (b : BrokerState) : Bool :=
  (startupRedisConn b).isSome

/-! ## Background task (`background_tasks.py`) -/

/-- The fixed `result_summary` text both success paths store. -/
def successSummary : String :=
  "Comprehensive financial analysis completed by AI specialists"

/-- The `components_analyzed` list both success paths store, flattened to
one string for the key/value abstraction of the JSON column. -/
def componentsAnalyzed : String :=
  "Document verification and authenticity, " ++
  "Financial performance metrics and trends, " ++
  "Investment opportunities and recommendations, " ++
  "Risk assessment and mitigation strategies"

/-- The `detailed_results` payload stored on success. -/
def successDetails (analysis_result : String) : List (String × String) :=
  [("analysis_result", analysis_result), ("components_analyzed", componentsAnalyzed)]

/-- The file-cleanup step in the `finally` block of `run_financial_analysis`
(background_tasks.py lines 75-81): `if os.path.exists(file_path):
os.remove(file_path)`, errors swallowed. -/
def cleanupFile (fs : FS) (file_path : String) : FS :=
  if fsContains fs file_path then fsErase fs file_path else fs

/-- `run_financial_analysis` (background_tasks.py lines 12-81), the job a
worker executes.  `crew` is the outcome of `financial_crew.kickoff`:
`.ok result` or `.error e` with `e = str(e)` of the raised exception.
`now1` is the clock at the `"processing"` update, `now2` at the terminal
update.  On success it marks the job completed with the fixed summary and
the detailed payload; on failure it marks it failed with the exception
message and re-raises; either way the `finally` block removes the file.
Returns the new store, the new filesystem, and the propagated outcome. -/
def run_financial_analysis (store : Store) (fs : FS) (analysis_id : Nat)
    (file_path : String) (crew : Except String String) (now1 now2 : Nat) :
    Store × FS × Except String Unit :=
  let s1 := (update_analysis_status store analysis_id "processing" none none none now1).1
  match crew with
  | .ok result =>
      let s2 := (update_analysis_status s1 analysis_id "completed"
        (some successSummary) (some (successDetails result)) none now2).1
      (s2, cleanupFile fs file_path, .ok ())
  | .error e =>
      let s2 := (update_analysis_status s1 analysis_id "failed"
        none none (some e) now2).1
      (s2, cleanupFile fs file_path, .error e)

/-! ## Worker (`worker.py`) -/

/-- `start_worker` (worker.py lines 7-20): if `is_redis_available()` is
false, print and return immediately; otherwise enter the queue worker
loop.  The loop's effect on the store and filesystem is delegated to the
external queue library, abstracted here as the parameter `work`. -/
def start_worker (b : BrokerState) (store : Store) (fs : FS)
    (work : Store → FS → Except String (Store × FS)) :
    Except String (Store × FS) :=
  if !is_redis_available b then .ok (store, fs)
  else work store fs

/-! ## The `POST /analyze` endpoint (`main.py` lines 70-207) -/

/-- Python `str.lower()`, per code point (kernel-computable form). -/
def pyLower (s : String) : String :=
  String.mk (s.data.map Char.toLower)

/-- Python `str.endswith(suffix)`. -/
def pyEndsWith (s suffix : String) : Bool :=
  suffix.data.isSuffixOf s.data

/-- Python `str.strip()`: drop leading and trailing whitespace. -/
def pyStrip (s : String) : String :=
  String.mk (((s.data.dropWhile Char.isWhitespace).reverse.dropWhile
    Char.isWhitespace).reverse)

/-- Python `s[:n]`: the first `n` code points. -/
def pySlice (s : String) (n : Nat) : String :=
  String.mk (s.data.take n)

/-- Python `len` on a string / bytes value. -/
def pyLen (s : String) : Nat :=
  s.data.length

/-- The default query substituted when the submitted query is blank
(main.py lines 73 and 107). -/
def defaultQuery : String :=
  "Provide a comprehensive analysis of this financial document including key metrics, trends, investment outlook, and risk assessment"

/-- Query sanitisation (main.py lines 106-109): substitute the default
when the query is empty or whitespace-only, then
`query.strip()[:1000]`. -/
def sanitizeQuery (query : String) : String :=
  let q := if query == "" || pyStrip query == "" then defaultQuery else query
  pySlice (pyStrip q) 1000

/-- The temporary path for an upload (main.py line 92), from a freshly
generated uuid. -/
def uploadPath (file_id : String) : String :=
  "data/financial_document_" ++ file_id ++ ".pdf"

/-- Python call semantics for `AnalysisCRUD.create_analysis`: each
parameter of the function may be supplied or omitted at a call site;
omitting the required positional parameter `file_id` (or `query`) raises
`TypeError` before the function body runs, and omitted optional
parameters take their declared defaults (`user_id=None`,
`analysis_type="comprehensive"`). -/
def create_analysis_kwcall (store : Store) (file_id : Option Nat)
    (query : Option String) (user_id : Option (Option Nat))
    (analysis_type : Option String) (now : Nat) :
    Except String (Store × Analysis) :=
  match file_id, query with
  | some fid, some q =>
      .ok (create_analysis store fid q (user_id.getD none)
        (analysis_type.getD "comprehensive") now)
  | _, _ =>
      .error "create_analysis() missing 1 required positional argument: 'file_id'"

/-- The response of `POST /analyze`: an `HTTPException` with its status
code and detail, the "queued" acknowledgement, or the synchronous
"success" payload. -/
inductive AnalyzeResponse where
  | httpError (statusCode : Nat) (detail : String)
  | queuedAck (analysis_id : Nat) (query : String)
  | syncSuccess (analysis_id : Nat) (query : String) (analysis_result : String)
  deriving Repr, DecidableEq

/-- HTTP status code of a response (non-error responses are 200). -/
def statusCodeOf : AnalyzeResponse → Nat
  | .httpError c _ => c
  | .queuedAck _ _ => 200
  | .syncSuccess _ _ _ => 200

/-- Result of one request to `POST /analyze`: the response together with
the store and filesystem afterwards. -/
structure EndpointResult where
  response : AnalyzeResponse
  store : Store
  fs : FS
  deriving Repr, DecidableEq

/-- `analyze_financial_document_endpoint` (main.py lines 70-207).

Inputs: the broker state, the upload's `filename` and byte `content`, the
form `query`, the fresh uuid for the temporary path, the current store and
filesystem, the pipeline outcome `crew`, and the clock `now`.

Faithful control flow:
1. non-`.pdf` filename → 400 before anything is written (line 88);
2. `open(file_path, "wb")` creates the file, then the content is read and
   a zero-byte upload raises a 400 `HTTPException` before `f.write` runs
   (lines 99-103) — re-raised untouched by `except HTTPException: raise`,
   and the `finally` block does not delete the file (lines 205-207);
3. the query is sanitised (lines 106-109);
4. the call `AnalysisCRUD.create_analysis(db=db, query=query,
   analysis_type="comprehensive")` (lines 112-116) omits the required
   positional parameter `file_id` of `create_analysis` (crud.py line 101),
   so it raises `TypeError`; the generic handler finds no
   `analysis_record` in scope and re-raises a 500 (lines 191-203);
5. (as written, unreachable) broker available → enqueue and return the
   "queued" acknowledgement; otherwise run the crew synchronously —
   `run_crew` wraps a pipeline exception in a 500 `HTTPException`
   (line 42) which propagates with no `"failed"` update — and on success
   update the record straight to `"completed"` (lines 151-165). -/
def analyzeEndpoint (b : BrokerState) (filename content query file_id : String)
    (store : Store) (fs : FS) (crew : Except String String) (now : Nat) :
    EndpointResult :=
  if !pyEndsWith (pyLower filename) ".pdf" then
    { response := .httpError 400 "Only PDF files are supported"
      store := store, fs := fs }
  else
    let file_path := uploadPath file_id
    let fs1 := fsWrite fs file_path ""
    if pyLen content == 0 then
      { response := .httpError 400 "Uploaded file is empty"
        store := store, fs := fs1 }
    else
      let fs2 := fsWrite fs1 file_path content
      let q := sanitizeQuery query
      match create_analysis_kwcall store none (some q) none none now with
      | .error e =>
          { response := .httpError 500 ("Error processing financial document: " ++ e)
            store := store, fs := fs2 }
      | .ok (store1, analysis_record) =>
          if is_redis_available b then
            { response := .queuedAck analysis_record.id q
              store := store1, fs := fs2 }
          else
            match crew with
            | .error e =>
                { response := .httpError 500 ("Crew execution failed: " ++ e)
                  store := store1, fs := fs2 }
            | .ok result =>
                let store2 := (update_analysis_status store1 analysis_record.id
                  "completed" (some successSummary)
                  (some (successDetails (toString result))) none now).1
                { response := .syncSuccess analysis_record.id q result
                  store := store2, fs := fs2 }

/-- The store update the synchronous fallback performs after the pipeline
returns (main.py lines 151-165), in isolation: one
`update_analysis_status` call straight to `"completed"`. -/
def fallbackCompleteUpdate (store : Store) (analysis_id : Nat)
    (analysis_result : String) (now : Nat) : Store :=
  (update_analysis_status store analysis_id "completed"
    (some successSummary) (some (successDetails analysis_result)) none now).1

/-! ## Claim theorems -/

/-- Claim C3 (code_bug): the claim says the job-record create operation
takes optional file and user references and fails with a `ValidationError`
for every empty query.  In the code, `create_analysis` performs no query
validation at all — an empty query produces a committed row with
`status="pending"` and `created_at=now` and no error — and `file_id` is a
required parameter, so the endpoint's call site, which supplies only
`query` and `analysis_type`, raises `TypeError` before any record is
created.  This theorem evaluates both facts. -/
theorem create_analysis_accepts_empty_query_and_requires_file_id :
    (create_analysis [] 7 "" none "comprehensive" 5).2.status = "pending" ∧
    (create_analysis [] 7 "" none "comprehensive" 5).2.created_at = 5 ∧
    (create_analysis [] 7 "" none "comprehensive" 5).1 =
      [(create_analysis [] 7 "" none "comprehensive" 5).2] ∧
    create_analysis_kwcall [] none (some "some query") none none 0 =
      .error "create_analysis() missing 1 required positional argument: 'file_id'" := by
  decide

/-- Claim C1 (code_bug): the claim says every job passes through
`processing` before exactly one terminal state on both dispatch paths.
The synchronous fallback (main.py lines 151-165) updates the freshly
created `pending` record straight to `"completed"`: after the fallback
update the job is terminal while `started_at` is still `none`, i.e. it
never entered `processing`.  (Independently, the endpoint's create call
raises `TypeError`, so as written no job is created by `POST /analyze` at
all.) -/
theorem fallback_path_skips_processing :
    (findAnalysis
      (fallbackCompleteUpdate
        (create_analysis [] 1 "some query" none "comprehensive" 0).1 1
        "pipeline output" 3) 1).map
      (fun a => (a.status, a.started_at)) =
    some ("completed", (none : Option Nat)) := by
  decide

/-- Claim C2 (code_bug): the claim says the temporary file no longer
exists after a terminal state or a rejected upload.  The endpoint's
`finally` block is `pass` (main.py lines 205-207, whose comment defers
cleanup to the background task, which never runs on the synchronous or
rejected paths): a zero-byte upload is rejected with 400 after
`open(file_path, "wb")` already created the file, which is then left on
storage; and a non-empty upload whose request ends in a terminal 500
likewise leaves its file on storage. -/
theorem rejected_and_sync_uploads_leak_files :
    (statusCodeOf (analyzeEndpoint ⟨false, false⟩ "a.pdf" "" "q" "u1" [] []
        (.ok "r") 0).response = 400 ∧
      fsContains (analyzeEndpoint ⟨false, false⟩ "a.pdf" "" "q" "u1" [] []
        (.ok "r") 0).fs (uploadPath "u1") = true) ∧
    (statusCodeOf (analyzeEndpoint ⟨false, false⟩ "a.pdf" "bytes" "q" "u2" [] []
        (.ok "r") 0).response = 500 ∧
      fsContains (analyzeEndpoint ⟨false, false⟩ "a.pdf" "bytes" "q" "u2" [] []
        (.ok "r") 0).fs (uploadPath "u2") = true) := by
  decide

/-- Claim C4 counterexample: the claim says `is_available` reports the
current health of the broker via a liveness round-trip, so that a broker
that becomes unavailable after startup makes it return `false`.  With the
broker healthy at startup but unhealthy now, `is_redis_available` still
returns `true`: it never re-probes. -/
theorem is_redis_available_ignores_current_health :
    is_redis_available ⟨true, false⟩ = true ∧
    BrokerState.healthyNow ⟨true, false⟩ = false := by
  decide

/-- Claim C4 amended: `is_redis_available` returns the cached result of
the single connection attempt (with one ping) made when the module was
imported at process startup; it is consulted before every enqueue attempt,
but its value depends only on the startup health of the broker, not on its
current health. -/
theorem is_redis_available_is_startup_snapshot :
    ∀ b : BrokerState, is_redis_available b = b.healthyAtStartup := by
  intro b
  cases b with
  | mk s n => cases s <;> rfl

/-- Claim C5 (confirmed): a zero-byte upload (content `""`) always gets a
400 response, creates no job record (the store is returned unchanged), and
is rejected before any byte of the upload reaches storage: the filesystem
either is untouched (non-`.pdf` filename) or holds only the empty file
created by `open(file_path, "wb")` — the emptiness check fires before
`f.write`, so no upload bytes are ever written. -/
theorem zero_byte_upload_rejected_without_record (b : BrokerState)
    (filename query file_id : String) (store : Store) (fs : FS)
    (crew : Except String String) (now : Nat) :
    statusCodeOf (analyzeEndpoint b filename "" query file_id store fs crew now).response = 400 ∧
    (analyzeEndpoint b filename "" query file_id store fs crew now).store = store ∧
    ((analyzeEndpoint b filename "" query file_id store fs crew now).fs = fs ∨
      (analyzeEndpoint b filename "" query file_id store fs crew now).fs =
        fsWrite fs (uploadPath file_id) "") := by
  unfold analyzeEndpoint
  cases h : pyEndsWith (pyLower filename) ".pdf" <;>
    simp [h, statusCodeOf, pyLen]

/-! Concrete stores for the `update_analysis_status` call-sequence
scenarios: one record created pending at time 0, then updated by the
sequences the claims quantify over. -/

/-- Store after `create_analysis` only: one pending record with id 1. -/
def c6Store0 : Store := (create_analysis [] 1 "some query" none "comprehensive" 0).1

/-- Store after a further `update_analysis_status(..., "completed")` at time 1. -/
def c6Store1 : Store := (update_analysis_status c6Store0 1 "completed" none none none 1).1

/-- Store after a further `update_analysis_status(..., "processing")` at time 2. -/
def c6Store2 : Store := (update_analysis_status c6Store1 1 "processing" none none none 2).1

/-- Store after a second `update_analysis_status(..., "processing")` at time 3. -/
def c6Store3 : Store := (update_analysis_status c6Store2 1 "processing" none none none 3).1

/-- The single record held by `c6Store1`: terminal (`completed` at time 1),
never started. -/
def c6Rec1 : Analysis :=
  { id := 1, user_id := none, file_id := some 1, query := "some query"
    status := "completed", analysis_type := "comprehensive"
    result_summary := none, detailed_results := none, error_message := none
    created_at := 0, started_at := none, completed_at := some 1 }

/-- Claim C6 counterexample: the claim says status transitions are
monotonic under every sequence of `update_status` calls and `started_at`
is set at most once.  The sequence completed-then-processing moves the job
out of its terminal state back to `processing` (with `started_at` stamped
after `completed_at`), and a second `processing` call overwrites
`started_at` again: the code enforces no ordering. -/
theorem update_status_allows_leaving_terminal_state :
    (findAnalysis c6Store1 1).map Analysis.status = some "completed" ∧
    (findAnalysis c6Store2 1).map Analysis.status = some "processing" ∧
    (findAnalysis c6Store2 1).map Analysis.started_at = some (some 2) ∧
    (findAnalysis c6Store3 1).map Analysis.started_at = some (some 3) := by
  decide

/-- Claim C6 amended: `update_analysis_status` applies whatever status is
requested without consulting the previous one — transitions are monotonic
only insofar as callers issue them in order.  On every call it overwrites
`status`; it (re)stamps `started_at` whenever the new status is
`"processing"` and `completed_at` whenever the new status is terminal, and
leaves both otherwise unchanged. -/
theorem update_status_applies_any_transition (store : Store) (i : Nat)
    (s : String) (rs : Option String) (dr : Option (List (String × String)))
    (em : Option String) (now : Nat) (a : Analysis)
    (h : findAnalysis store i = some a) :
    (update_analysis_status store i s rs dr em now).2.map Analysis.status = some s ∧
    (update_analysis_status store i s rs dr em now).2.map Analysis.started_at =
      some (if s == "processing" then some now else a.started_at) ∧
    (update_analysis_status store i s rs dr em now).2.map Analysis.completed_at =
      some (if s == "processing" then a.completed_at
        else if s == "completed" || s == "failed" then some now else a.completed_at) := by
  unfold update_analysis_status applyStatusUpdate
  rw [h]
  cases hrs : strTruthy rs <;> cases hdr : dictTruthy dr <;> cases hem : strTruthy em <;>
    cases hp : (s == "processing") <;> cases hc : (s == "completed" || s == "failed") <;>
      simp [hp, hc, hrs, hdr, hem]

/-- Witness for the C6 amended theorem at a concrete input: re-running
`"processing"` on the already-completed record of `c6Store1` at time 9. -/
theorem update_status_applies_any_transition_witness :
    (update_analysis_status c6Store1 1 "processing" none none none 9).2.map Analysis.status =
      some "processing" ∧
    (update_analysis_status c6Store1 1 "processing" none none none 9).2.map Analysis.started_at =
      some (if ("processing" == "processing") then some 9 else c6Rec1.started_at) ∧
    (update_analysis_status c6Store1 1 "processing" none none none 9).2.map Analysis.completed_at =
      some (if ("processing" == "processing") then c6Rec1.completed_at
        else if ("processing" == "completed" || "processing" == "failed") then some 9
        else c6Rec1.completed_at) :=
  update_status_applies_any_transition c6Store1 1 "processing" none none none 9 c6Rec1
    (by decide)

/-- A single-job system run: a record is created (pending), then processed
end-to-end by `run_financial_analysis` with pipeline outcome `crew` —
the lifecycle every job dispatched through the queue goes through. -/
def lifecycleRun (fileId : Nat) (q : String) (uid : Option Nat) (atype : String)
    (now0 : Nat) (fs : FS) (path : String) (crew : Except String String) (n1 n2 : Nat) :
    Store × FS × Except String Unit :=
  let p := create_analysis [] fileId q uid atype now0
  run_financial_analysis p.1 fs p.2.id path crew n1 n2

/-- Claim C7 counterexample: the claim says every failed job has a
non-empty `error_message`.  When the pipeline raises an exception whose
message is empty (`str(e) == ""`), the truthiness guard in
`update_analysis_status` skips the assignment: the job ends `failed` with
`error_message` still null. -/
theorem failed_job_with_empty_error_message :
    (findAnalysis (lifecycleRun 1 "some query" none "comprehensive" 0
        [(uploadPath "u", "bytes")] (uploadPath "u") (.error "") 1 2).1 1).map
      (fun a => (a.status, a.error_message)) =
    some ("failed", (none : Option String)) := by
  decide

/-- Claim C7 amended: for a job processed through the pipeline lifecycle,
`completed` implies `result_summary` is the (non-empty) fixed summary and
`error_message` is null, and `failed` implies `result_summary` is null
and `error_message` is the exception message whenever that message is
non-empty — an empty exception message leaves `error_message` null. -/
theorem job_lifecycle_result_fields (fileId : Nat) (q : String)
    (uid : Option Nat) (atype : String) (now0 : Nat) (fs : FS) (path : String)
    (crew : Except String String) (n1 n2 : Nat) :
    (findAnalysis (lifecycleRun fileId q uid atype now0 fs path crew n1 n2).1 1).map
        Analysis.status =
      some (match crew with | .ok _ => "completed" | .error _ => "failed") ∧
    (findAnalysis (lifecycleRun fileId q uid atype now0 fs path crew n1 n2).1 1).map
        Analysis.result_summary =
      some (match crew with | .ok _ => some successSummary | .error _ => none) ∧
    (findAnalysis (lifecycleRun fileId q uid atype now0 fs path crew n1 n2).1 1).map
        Analysis.error_message =
      some (match crew with
            | .ok _ => none
            | .error e => if e.isEmpty then none else some e) ∧
    (findAnalysis (lifecycleRun fileId q uid atype now0 fs path crew n1 n2).1 1).map
        Analysis.started_at = some (some n1) ∧
    (findAnalysis (lifecycleRun fileId q uid atype now0 fs path crew n1 n2).1 1).map
        Analysis.completed_at = some (some n2) := by
  cases crew with
  | ok res =>
      have hs : successSummary.isEmpty = false := by decide
      simp [lifecycleRun, create_analysis, run_financial_analysis, update_analysis_status,
        findAnalysis, applyStatusUpdate, replaceById, strTruthy, dictTruthy, successDetails, hs]
  | error e =>
      cases he : e.isEmpty <;>
      simp [lifecycleRun, create_analysis, run_financial_analysis, update_analysis_status,
        findAnalysis, applyStatusUpdate, replaceById, strTruthy, dictTruthy, he]

/-- A query of 1001 identical characters, longer than the 1000-character cap. -/
def c8LongQuery : String := String.mk (List.replicate 1001 'a')

set_option maxRecDepth 100000 in
/-- Claim C8 (code_bug): the claim says a query longer than 1000
characters is stored and passed to the pipeline as exactly the first 1000
characters of its trimmed form.  The sanitisation step does compute that
truncation (`sanitizeQuery` here), but the request then crashes at the
`create_analysis` call (`TypeError`: missing `file_id`) and returns 500
with the store unchanged — no value is ever stored on a job record and
the pipeline is never invoked. -/
theorem long_query_request_stores_nothing :
    pyLen c8LongQuery = 1001 ∧
    sanitizeQuery c8LongQuery = String.mk (List.replicate 1000 'a') ∧
    (analyzeEndpoint ⟨false, false⟩ "a.pdf" "bytes" c8LongQuery "u3" [] []
      (.ok "r") 0).store = [] ∧
    statusCodeOf (analyzeEndpoint ⟨false, false⟩ "a.pdf" "bytes" c8LongQuery "u3" [] []
      (.ok "r") 0).response = 500 := by
  decide

/-- A processing-state record with previously stored results, for the
frame-property witness. -/
def c9Rec : Analysis :=
  { id := 1, user_id := none, file_id := some 1, query := "some query"
    status := "processing", analysis_type := "comprehensive"
    result_summary := some "prior summary", detailed_results := some [("k", "v")]
    error_message := none, created_at := 0, started_at := some 1, completed_at := none }

/-- Claim C9 (confirmed): when every optional argument of
`update_analysis_status` is falsy (`None`, the empty string, or the empty
dict), the updated record is exactly the old record with `status`
overwritten and only the timestamp tied to the new status stamped: all
result fields — in particular a previously stored `result_summary` and
`detailed_results` — are left unchanged, and an empty message is never
stored. -/
theorem update_status_falsy_args_leave_fields (store : Store) (i : Nat)
    (s : String) (rs : Option String) (dr : Option (List (String × String)))
    (em : Option String) (now : Nat) (a : Analysis)
    (h : findAnalysis store i = some a) (hrs : strTruthy rs = false)
    (hdr : dictTruthy dr = false) (hem : strTruthy em = false) :
    (update_analysis_status store i s rs dr em now).2 =
      some { a with
        status := s
        started_at := if s == "processing" then some now else a.started_at
        completed_at := if s == "processing" then a.completed_at
          else if s == "completed" || s == "failed" then some now
          else a.completed_at } := by
  unfold update_analysis_status applyStatusUpdate
  rw [h, hrs, hdr, hem]
  cases hp : (s == "processing") <;> cases hc : (s == "completed" || s == "failed") <;>
    simp [hp, hc]

/-- Witness for C9 at a concrete input: marking the record `failed` while
passing a falsy empty dict and empty message keeps the previously stored
summary and details and stores no message. -/
theorem update_status_falsy_args_leave_fields_witness :
    (update_analysis_status [c9Rec] 1 "failed" none (some []) (some "") 7).2 =
      some { c9Rec with
        status := "failed"
        started_at := if ("failed" == "processing") then some 7 else c9Rec.started_at
        completed_at := if ("failed" == "processing") then c9Rec.completed_at
          else if ("failed" == "completed" || "failed" == "failed") then some 7
          else c9Rec.completed_at } :=
  update_status_falsy_args_leave_fields [c9Rec] 1 "failed" none (some []) (some "") 7
    c9Rec (by decide) (by decide) (by decide) (by decide)

/-- Claim C10 (confirmed): when the broker connection failed at startup
(`is_redis_available` is false), `start_worker` returns immediately with
no error, performs no dequeue or processing — the worker loop `work` is
never consulted — and leaves the job store and the filesystem unchanged. -/
theorem worker_returns_when_broker_unavailable (b : BrokerState)
    (store : Store) (fs : FS) (work : Store → FS → Except String (Store × FS))
    (h : is_redis_available b = false) :
    start_worker b store fs work = .ok (store, fs) := by
  unfold start_worker
  rw [h]
  rfl

/-- Witness for C10 at a concrete input: the broker is down at startup
(even though it is healthy now) and the worker loop would crash if it were
ever entered; `start_worker` still returns cleanly with everything
unchanged. -/
theorem worker_returns_when_broker_unavailable_witness :
    start_worker ⟨false, true⟩ [] [] (fun _ _ => .error "worker crash") =
      .ok ([], []) :=
  worker_returns_when_broker_unavailable ⟨false, true⟩ [] []
    (fun _ _ => .error "worker crash") rfl

end FinAnalyzer
